import Mathlib

/-!
Verification of the polling application's core request-handling flow
(poll creation, poll listing, vote submission, poll results) against its
specification.  The data model embeds the rows of the external store's
`polls`, `poll_options` and `votes` tables; the handlers embed the two
route modules (`app/api/polls/route.ts` and `app/api/polls/[id]/vote/route.ts`)
and the helpers in `lib/api-helpers.ts`.  External effects (the auth
provider, store-level failures, store-assigned identifiers and timestamps)
are passed in as explicit parameters.
-/

namespace Polling

/-! ## Data model: rows of the external store -/

/-- A row of the `polls` table. -/
structure Poll where
  id : String
  title : String
  description : Option String
  is_active : Bool
  owner_id : String
  created_at : Nat
  deriving Repr, DecidableEq

/-- A row of the `poll_options` table.  The creation path writes the ordinal
under the column name `order` while the read paths select `order_index`;
the embedding uses a single ordinal field for both. -/
structure PollOption where
  id : String
  poll_id : String
  text : String
  votes : Nat
  order_index : Nat
  deriving Repr, DecidableEq

/-- A row of the `votes` table. -/
structure Vote where
  id : String
  poll_id : String
  option_id : String
  user_id : String
  created_at : Nat
  deriving Repr, DecidableEq

/-- The persistent state held by the external store. -/
structure Store where
  polls : List Poll
  poll_options : List PollOption
  votes : List Vote
  deriving Repr, DecidableEq

/-! ## JSON values and HTTP responses -/

/-- JSON values, used for response bodies. -/
inductive JsonVal where
  | str (s : String)
  | num (n : Int)
  | bool (b : Bool)
  | null
  | arr (elems : List JsonVal)
  | obj (fields : List (String × JsonVal))
  deriving Repr

/-- An HTTP response: a status code and a JSON object body, kept as its
top-level field list. -/
structure HttpResponse where
  status : Nat
  body : List (String × JsonVal)
  deriving Repr

/-- Look up a top-level field of a response body. -/
def bodyField (r : HttpResponse) (key : String) : Option JsonVal :=
  (r.body.find? (fun p => p.1 == key)).map (fun p => p.2)

/-- Look up a field of a JSON object value. -/
def objField (j : JsonVal) (key : String) : Option JsonVal :=
  match j with
  | .obj fs => ((fs.find? (fun p => p.1 == key)).map (fun p => p.2))
  | _ => none

/-- Does the body carry boolean field `key`? -/
def hasBoolField (r : HttpResponse) (key : String) : Bool :=
  r.body.any (fun p => p.1 == key && (match p.2 with | .bool _ => true | _ => false))

/-- Does the body carry string field `key`? -/
def hasStringField (r : HttpResponse) (key : String) : Bool :=
  r.body.any (fun p => p.1 == key && (match p.2 with | .str _ => true | _ => false))

/-! ## Small string utilities (JS semantics) -/

/-- Remove the first occurrence of `pat` from a character list; the embedding
of a JavaScript `String.prototype.replace(pat, "")` call with a string
pattern, which replaces only the first occurrence. -/
def removeOnce (pat : List Char) : List Char → List Char
  | [] => []
  | c :: rest =>
    if pat.isPrefixOf (c :: rest) then (c :: rest).drop pat.length
    else c :: removeOnce pat rest

/-- JS `s.replace(pat, "")` for a string pattern. -/
def jsRemoveFirst (pat s : String) : String :=
  ⟨removeOnce pat.toList s.toList⟩

/-- JS whitespace for trimming purposes. -/
def isWsChar (c : Char) : Bool :=
  c = ' ' || c = '\t' || c = '\n' || c = '\r'

/-- JS `s.trim()`. -/
def jsTrim (s : String) : String :=
  ⟨((s.toList.dropWhile isWsChar).reverse.dropWhile isWsChar).reverse⟩

/-- JS `s.startsWith(pat)`. -/
def strStartsWith (s pat : String) : Bool :=
  pat.toList.isPrefixOf s.toList

/-- Split a character list at every occurrence of `sep`. -/
def splitOnChar (sep : Char) : List Char → List (List Char)
  | [] => [[]]
  | c :: rest =>
    if c = sep then [] :: splitOnChar sep rest
    else
      match splitOnChar sep rest with
      | g :: gs => (c :: g) :: gs
      | [] => [[c]]

/-- Is `pat` a contiguous substring of `s` (helper for the list form)? -/
def strContainsAux (pat : List Char) : List Char → Bool
  | [] => pat.isPrefixOf ([] : List Char)
  | c :: rest => pat.isPrefixOf (c :: rest) || strContainsAux pat rest

/-- Is `pat` a contiguous substring of `s`? -/
def strContains (s pat : String) : Bool :=
  strContainsAux pat.toList s.toList

/-- Hexadecimal digit (either case). -/
def isHexDigit (c : Char) : Bool :=
  c.isDigit || ('a' ≤ c && c ≤ 'f') || ('A' ≤ c && c ≤ 'F')

/-- The `z.string().uuid()` check applied to the vote body's `option_id`:
five hyphen-separated hex groups of widths 8-4-4-4-12, version digit 1–5,
variant nibble 8/9/a/b. -/
def isUuid (s : String) : Bool :=
  match splitOnChar '-' s.toList with
  | [g1, g2, g3, g4, g5] =>
    g1.length == 8 && g2.length == 4 && g3.length == 4 && g4.length == 4 &&
    g5.length == 12 &&
    (g1 ++ g2 ++ g3 ++ g4 ++ g5).all isHexDigit &&
    (match g3 with
     | c :: _ => '1' ≤ c && c ≤ '5'
     | [] => false) &&
    (match g4 with
     | c :: _ => c = '8' || c = '9' || c = 'a' || c = 'b' || c = 'A' || c = 'B'
     | [] => false)
  | _ => false

/-! ## Response formatter (`lib/api-helpers.ts`, class `ApiHelpers`) -/

/-- `REQUEST_SIZE_LIMIT` from `lib/api-helpers.ts` (10KB). -/
def REQUEST_SIZE_LIMIT : Nat := 10000

/-- `MIN_TOKEN_LENGTH` from `lib/api-helpers.ts`. -/
def MIN_TOKEN_LENGTH : Nat := 10

/-- `ApiHelpers.errorResponse`: the uniform error envelope
`{success: false, message, errors?}` with the given status. -/
def errorResponse (message : String) (status : Nat) (errors : Option JsonVal) :
    HttpResponse :=
  ⟨status,
    [("success", .bool false), ("message", .str message)] ++
      (match errors with | some e => [("errors", e)] | none => [])⟩

/-- `ApiHelpers.successResponse`: the uniform success envelope
`{success: true, message, data?}` with the given status. -/
def successResponse (message : String) (data : Option JsonVal) (status : Nat) :
    HttpResponse :=
  ⟨status,
    [("success", .bool true), ("message", .str message)] ++
      (match data with | some d => [("data", d)] | none => [])⟩

/-- `ApiHelpers.handleDatabaseError`: any store-level error becomes a generic
`Failed to <operation>` 500 response. -/
def handleDatabaseError (operation : String) : HttpResponse :=
  errorResponse ("Failed to " ++ operation) 500 none

/-- Modelled from the spec: `handleAuthError` from the repository's
`lib/error-handler` module, which is not present under `src/`.  Per the spec
(§4.5, §7) an authentication failure is terminal and maps to a 401 response in
the uniform envelope carrying the given message. -/
def handleAuthError (message : String) : HttpResponse :=
  ⟨401, [("success", .bool false), ("message", .str message)]⟩

/-- Modelled from the spec: `handleNotFoundError` from the repository's
`lib/error-handler` module, which is not present under `src/`.  Per the spec
(§4.5, §7) a missing resource maps to a 404 response in the uniform envelope;
the message names the missing resource. -/
def handleNotFoundError (resource : String) : HttpResponse :=
  ⟨404, [("success", .bool false), ("message", .str (resource ++ " not found"))]⟩

/-- Modelled from the spec: `handleVoteError` from the repository's
`lib/error-handler` module, which is not present under `src/`.  Per the spec
(§4.4, §4.5) any vote-insert error other than the uniqueness violation is a
generic store failure: a 500 response in the uniform envelope. -/
def handleVoteError (_code : String) : HttpResponse :=
  ⟨500, [("success", .bool false), ("message", .str "Failed to submit vote")]⟩

/-- The catch-all 500 response both route modules produce from their outer
`try/catch`. -/
def unexpectedErrorResponse : HttpResponse :=
  ⟨500, [("success", .bool false), ("message", .str "An unexpected error occurred")]⟩

/-! ## Authenticator -/

/-- The answer of the external auth provider's `auth.getUser(token)` call:
a resolved user, an error-or-no-user outcome, or a thrown exception. -/
inductive AuthAnswer where
  | user (id : String) (email : Option String)
  | noUser
  | thrown
  deriving Repr, DecidableEq

/-- The result of `ApiHelpers.authenticateUser`. -/
inductive AuthResult where
  | ok (userId : String) (email : Option String)
  | err (response : HttpResponse)
  deriving Repr

/-- `ApiHelpers.authenticateUser` from `lib/api-helpers.ts`: the header must
be present and start with `"Bearer "`; the token (after removing the first
occurrence of `"Bearer "` and trimming) must be nonempty and at least
`MIN_TOKEN_LENGTH` characters; only then is the external provider consulted. -/
def authenticateUser (authHeader : Option String)
    (getUser : String → AuthAnswer) : AuthResult :=
  match authHeader with
  | none => .err (errorResponse "Invalid authorization header format" 401 none)
  | some h =>
    if strStartsWith h "Bearer " then
      let token := jsTrim (jsRemoveFirst "Bearer " h)
      if token = "" ∨ token.length < MIN_TOKEN_LENGTH then
        .err (errorResponse "Invalid token format" 401 none)
      else
        match getUser token with
        | .user uid email => .ok uid email
        | .noUser => .err (errorResponse "Unauthorized - Invalid token" 401 none)
        | .thrown => .err (errorResponse "Authentication failed" 401 none)
    else .err (errorResponse "Invalid authorization header format" 401 none)

/-! ## Store queries shared by the handlers -/

/-- A supabase `.single()` call: succeeds exactly when the filtered selection
holds exactly one row. -/
def singleRow {α : Type} : List α → Option α
  | [x] => some x
  | _ => none

/-- `.from('polls').eq('id', pollId).single()`. -/
def lookupPoll (s : Store) (pollId : String) : Option Poll :=
  singleRow (s.polls.filter (fun p => p.id == pollId))

/-- `.from('poll_options').eq('id', optionId).eq('poll_id', pollId).single()`. -/
def lookupOption (s : Store) (optionId pollId : String) : Option PollOption :=
  singleRow
    (s.poll_options.filter (fun o => o.id == optionId && o.poll_id == pollId))

/-- `.from('poll_options').select(...).eq('poll_id', pollId)
.order('votes', {ascending: false})`: the poll's option rows ordered by
descending vote count. -/
def voteResultsRows (s : Store) (pollId : String) : List PollOption :=
  List.insertionSort (fun a b => b.votes ≤ a.votes)
    (s.poll_options.filter (fun o => o.poll_id == pollId))

/-- Insert into `votes`; the store enforces the uniqueness constraint over
`(poll_id, user_id)` and signals its violation with error code `23505`. -/
def insertVote (s : Store) (freshId : String) (now : Nat)
    (pollId optionId userId : String) : Except String (Vote × Store) :=
  if s.votes.any (fun v => v.poll_id == pollId && v.user_id == userId) then
    .error "23505"
  else
    let v : Vote := ⟨freshId, pollId, optionId, userId, now⟩
    .ok (v, ⟨s.polls, s.poll_options, s.votes ++ [v]⟩)

/-! ## Vote Recorder: `POST /api/polls/[id]/vote` -/

/-- Store-level failures that can be injected into the vote handler's calls:
an error from the poll select, from the option select, an insert failure with
a given error code, a failing results re-fetch, and a throwing audit logger. -/
structure VoteFaults where
  pollLookupErr : Bool
  optionLookupErr : Bool
  insertErr : Option String
  resultsErr : Bool
  auditErr : Bool
  deriving Repr, DecidableEq

/-- The fault-free store behaviour. -/
def noVoteFaults : VoteFaults := ⟨false, false, none, false, false⟩

/-- A vote request: the `[id]` path parameter, the parsed body's `option_id`,
and the `authorization` header. -/
structure VoteRequest where
  pollId : String
  option_id : String
  authHeader : Option String
  deriving Repr, DecidableEq

/-- The observable outcome of the vote handler: the HTTP response, the store
afterwards, and a ghost observation recording whether control reached the
votes-table insert. -/
structure VoteOutcome where
  response : HttpResponse
  store : Store
  insertAttempted : Bool
  deriving Repr

/-- The outcome of the vote handler's insert step: either the injected store
failure, or the insert governed by the uniqueness constraint. -/
def voteInsertStep (s : Store) (injected : Option String) (freshId : String)
    (now : Nat) (pollId optionId userId : String) : Except String (Vote × Store) :=
  match injected with
  | some code => .error code
  | none => insertVote s freshId now pollId optionId userId

/-- JSON row for one entry of the vote handler's re-fetched results. -/
def optionRowJson (o : PollOption) : JsonVal :=
  .obj [("id", .str o.id), ("text", .str o.text), ("votes", .num o.votes),
        ("order_index", .num o.order_index)]

/-- `POST /api/polls/[id]/vote` from `app/api/polls/[id]/vote/route.ts`:
validate the body (`option_id` must be a UUID), authenticate, look up the
poll, check it is active, look up the option within the poll, insert the vote
(mapping a `23505` uniqueness violation to 409), best-effort audit log, and
re-fetch the results. -/
def votePOST (s : Store) (f : VoteFaults) (getUser : String → AuthAnswer)
    (freshVoteId : String) (now : Nat) (req : VoteRequest) : VoteOutcome :=
  if ¬ isUuid req.option_id then
    ⟨⟨400, [("success", .bool false), ("message", .str "Validation failed"),
            ("errors",
             .arr [.obj [("field", .str "option_id"),
                         ("message", .str "Invalid option ID format")]])]⟩,
     s, false⟩
  else
    match req.authHeader.map (jsRemoveFirst "Bearer ") with
    | none => ⟨handleAuthError "No token provided", s, false⟩
    | some token =>
      if token = "" then ⟨handleAuthError "No token provided", s, false⟩
      else
        match getUser token with
        | .thrown => ⟨unexpectedErrorResponse, s, false⟩
        | .noUser => ⟨handleAuthError "Invalid token", s, false⟩
        | .user userId _ =>
          if f.pollLookupErr then ⟨handleNotFoundError "Poll", s, false⟩
          else
            match lookupPoll s req.pollId with
            | none => ⟨handleNotFoundError "Poll", s, false⟩
            | some poll =>
              if ¬ poll.is_active then
                ⟨⟨400, [("success", .bool false),
                        ("message", .str "Poll is no longer active")]⟩,
                 s, false⟩
              else
                if f.optionLookupErr then
                  ⟨⟨400, [("success", .bool false),
                          ("message", .str "Invalid option for this poll")]⟩,
                   s, false⟩
                else
                  match lookupOption s req.option_id req.pollId with
                  | none =>
                    ⟨⟨400, [("success", .bool false),
                            ("message", .str "Invalid option for this poll")]⟩,
                     s, false⟩
                  | some _option =>
                    match voteInsertStep s f.insertErr freshVoteId now
                        req.pollId req.option_id userId with
                    | .error code =>
                      if code = "23505" then
                        ⟨⟨409, [("success", .bool false),
                                ("message",
                                 .str "You have already voted on this poll")]⟩,
                         s, true⟩
                      else ⟨handleVoteError code, s, true⟩
                    | .ok (v, s1) =>
                      -- the audit log is fire-and-forget: a failure is
                      -- swallowed and leaves no observable trace
                      let results :=
                        if f.resultsErr then [] else voteResultsRows s1 req.pollId
                      ⟨⟨201,
                        [("success", .bool true),
                         ("message", .str "Vote submitted successfully!"),
                         ("vote",
                          .obj [("id", .str v.id), ("poll_id", .str req.pollId),
                                ("option_id", .str req.option_id),
                                ("user_id", .str userId),
                                ("created_at", .num v.created_at)]),
                         ("poll",
                          .obj [("id", .str req.pollId),
                                ("title", .str poll.title),
                                ("results", .arr (results.map optionRowJson))])]⟩,
                       s1, true⟩

/-! ## Poll results: `GET /api/polls/[id]/vote` -/

/-- Store-level failures injectable into the results handler. -/
structure ResultsFaults where
  pollLookupErr : Bool
  optionsErr : Bool
  deriving Repr, DecidableEq

/-- The fault-free results fetch. -/
def noResultsFaults : ResultsFaults := ⟨false, false⟩

/-- `Math.round((votes / total) * 100)` for `total > 0`, modelled over the
exact rationals: `⌊votes·100/total + 1/2⌋`. -/
def jsRoundPct (votes total : Nat) : Nat :=
  (200 * votes + total) / (2 * total)

/-- JSON for the description column (`null` when absent). -/
def optStrJson : Option String → JsonVal
  | some s => .str s
  | none => .null

/-- `GET /api/polls/[id]/vote` from `app/api/polls/[id]/vote/route.ts`:
look up the poll (404 when absent), fetch its options ordered by descending
votes (500 on a store failure), total the votes and attach percentages. -/
def voteGET (s : Store) (f : ResultsFaults) (pollId : String) : HttpResponse :=
  if f.pollLookupErr then
    ⟨404, [("success", .bool false), ("message", .str "Poll not found")]⟩
  else
    match lookupPoll s pollId with
    | none =>
      ⟨404, [("success", .bool false), ("message", .str "Poll not found")]⟩
    | some poll =>
      if f.optionsErr then
        ⟨500, [("success", .bool false),
               ("message", .str "Failed to fetch poll results")]⟩
      else
        let options := voteResultsRows s pollId
        let totalVotes : Nat := (options.map (fun o => o.votes)).sum
        let withPct := options.map (fun o =>
          .obj [("id", .str o.id), ("text", .str o.text),
                ("votes", .num o.votes), ("order_index", .num o.order_index),
                ("percentage",
                 .num (if totalVotes > 0 then jsRoundPct o.votes totalVotes
                       else 0))])
        ⟨200,
         [("success", .bool true),
          ("poll",
           .obj [("id", .str poll.id), ("title", .str poll.title),
                 ("description", optStrJson poll.description),
                 ("is_active", .bool poll.is_active),
                 ("created_at", .num poll.created_at),
                 ("owner_id", .str poll.owner_id),
                 ("total_votes", .num totalVotes),
                 ("options", .arr withPct)])]⟩

/-! ## Poll Repository (`lib/api-helpers.ts`, class `PollDatabase`) -/

/-- Store-level failures injectable into `createPollWithOptions`. -/
structure CreateFaults where
  pollInsertErr : Bool
  optionsInsertErr : Bool
  deriving Repr, DecidableEq

/-- The fault-free creation. -/
def noCreateFaults : CreateFaults := ⟨false, false⟩

/-- The `pollData` argument of `createPollWithOptions`. -/
structure PollInsertData where
  title : String
  description : Option String
  ownerId : String
  deriving Repr, DecidableEq

/-- One element of the `optionsData` array built by `createPollWithOptions`:
`{poll_id, text, votes: 0, order: index}` (no id; the store assigns one on
insert). -/
structure OptionData where
  poll_id : String
  text : String
  votes : Nat
  order : Nat
  deriving Repr, DecidableEq

/-- The poll row inserted by `createPollWithOptions`: `is_active` is set to
`true`, an empty description is collapsed to `null` (JS `description || null`),
and the store assigns the id and creation timestamp. -/
def mkPollRow (freshPollId : String) (now : Nat) (pd : PollInsertData) : Poll :=
  ⟨freshPollId, pd.title,
   (match pd.description with
    | some d => if d = "" then none else some d
    | none => none),
   true, pd.ownerId, now⟩

/-- The `optionsData` array: drop options that are empty after trimming, trim
the rest, set `votes` to 0 and the ordinal to the index in the kept list. -/
def mkOptionsData (freshPollId : String) (options : List String) :
    List OptionData :=
  ((options.filter (fun o => jsTrim o ≠ "")).enum).map
    (fun p => ⟨freshPollId, jsTrim p.2, 0, p.1⟩)

/-- The result of `createPollWithOptions`: the created poll together with the
`optionsData` echoed into the response, or an error response. -/
inductive CreateResult where
  | ok (poll : Poll) (optionsData : List OptionData)
  | err (response : HttpResponse)
  deriving Repr

/-- `PollDatabase.createPollWithOptions` from `lib/api-helpers.ts`: insert the
poll row; on failure return a database error at once (nothing inserted).
Then insert the option rows; on failure return a database error while the
already-inserted poll row stays in the store (no rollback). -/
def createPollWithOptions (s : Store) (f : CreateFaults) (freshPollId : String)
    (freshOptionIds : List String) (now : Nat) (pd : PollInsertData)
    (options : List String) : CreateResult × Store :=
  if f.pollInsertErr then
    (.err (handleDatabaseError "create poll"), s)
  else
    let poll := mkPollRow freshPollId now pd
    let s1 : Store := ⟨s.polls ++ [poll], s.poll_options, s.votes⟩
    let optionsData := mkOptionsData freshPollId options
    if f.optionsInsertErr then
      (.err (handleDatabaseError "create poll options"), s1)
    else
      let rows : List PollOption :=
        (freshOptionIds.zip optionsData).map
          (fun p => ⟨p.1, p.2.poll_id, p.2.text, p.2.votes, p.2.order⟩)
      (.ok poll optionsData, ⟨s1.polls, s1.poll_options ++ rows, s1.votes⟩)

/-- One poll as enriched by `fetchPollsWithVotes`: the row, its nested
options, and the computed `total_votes`. -/
structure PollWithVotes where
  poll : Poll
  options : List PollOption
  total_votes : Nat
  deriving Repr, DecidableEq

/-- The result of `fetchPollsWithVotes`. -/
inductive FetchResult where
  | ok (polls : List PollWithVotes)
  | err (response : HttpResponse)
  deriving Repr

/-- The ordering `.order("created_at", { ascending: false })` sorts by:
newer polls first. -/
def pollCreatedDesc : Poll → Poll → Prop :=
  fun a b => b.created_at ≤ a.created_at

instance : DecidableRel pollCreatedDesc := fun a b =>
  inferInstanceAs (Decidable (b.created_at ≤ a.created_at))

instance : IsTotal Poll pollCreatedDesc :=
  ⟨fun a b => le_total b.created_at a.created_at⟩

instance : IsTrans Poll pollCreatedDesc :=
  ⟨fun _ _ _ h1 h2 => le_trans h2 h1⟩

/-- The store's answer to the polls select with nested options:
rows of `polls` with `is_active = true`, ordered by `created_at` descending,
each with its `poll_options` rows attached. -/
def dbSelectActivePolls (s : Store) : List (Poll × List PollOption) :=
  (List.insertionSort pollCreatedDesc
      (s.polls.filter (fun p => p.is_active))).map
    (fun p => (p, s.poll_options.filter (fun o => o.poll_id == p.id)))

/-- `PollDatabase.fetchPollsWithVotes` from `lib/api-helpers.ts`: read all
active polls with their options (newest first) and compute `total_votes` as
the sum of the option vote counts. -/
def fetchPollsWithVotes (s : Store) (fetchErr : Bool) : FetchResult :=
  if fetchErr then .err (handleDatabaseError "fetch polls")
  else
    .ok ((dbSelectActivePolls s).map
      (fun r => ⟨r.1, r.2, (r.2.map (fun o => o.votes)).sum⟩))

/-! ## Input Validator (spec-modelled) and JSON serialization -/

/-- A field-level validation error. -/
structure FieldError where
  field : String
  message : String
  deriving Repr, DecidableEq

/-- The normalized payload a successful validation returns. -/
structure ValidData where
  title : String
  description : Option String
  options : List String
  deriving Repr, DecidableEq

/-- Markup stripping for the title: drop everything between `<` and `>`. -/
def stripMarkup (s : String) : String :=
  ⟨(s.toList.foldl
      (fun (acc : List Char × Bool) c =>
        match acc.2, c with
        | false, '<' => (acc.1, true)
        | true, '>' => (acc.1, false)
        | true, _ => (acc.1, true)
        | false, _ => (acc.1 ++ [c], false))
      ([], false)).1⟩

/-- Modelled from the spec: `validateAndSanitizePoll` from the repository's
`lib/validation-schemas` module, which is not present under `src/`.  Spec
§4.1: the title is trimmed and stripped of markup and must be 3–200
characters; the description is optional and at most 500 characters; the
options array must have 2–10 entries, each 1–100 characters after trimming,
and no two options may be equal after trimming (case-sensitive); each
violation reports the offending field and a human-readable reason, the
duplicate-options violation reporting field `options` with a message
containing "must be unique". -/
def pollValidationErrors (title : String) (description : Option String)
    (options : List String) : List FieldError :=
  (if (stripMarkup (jsTrim title)).length < 3 then
    [⟨"title", "Title must be at least 3 characters"⟩] else []) ++
  (if (stripMarkup (jsTrim title)).length > 200 then
    [⟨"title", "Title must be at most 200 characters"⟩] else []) ++
  (match description with
   | some d =>
     if d.length > 500 then
       [⟨"description", "Description must be at most 500 characters"⟩]
     else []
   | none => []) ++
  (if options.length < 2 then
    [⟨"options", "At least 2 options are required"⟩] else []) ++
  (if options.length > 10 then
    [⟨"options", "At most 10 options are allowed"⟩] else []) ++
  (if (options.map (fun o => jsTrim o)).any
      (fun o => o.length = 0 || o.length > 100) then
    [⟨"options", "Each option must be 1-100 characters"⟩] else []) ++
  (if (options.map (fun o => jsTrim o)).Nodup then []
   else [⟨"options", "Options must be unique"⟩])

/-- Modelled from the spec (continued): the validator returns the normalized
payload when no rule is violated, and the field-level error list otherwise. -/
def validateAndSanitizePoll (title : String) (description : Option String)
    (options : List String) : Except (List FieldError) ValidData :=
  if (pollValidationErrors title description options).isEmpty then
    .ok ⟨stripMarkup (jsTrim title), description,
         options.map (fun o => jsTrim o)⟩
  else .error (pollValidationErrors title description options)

/-- JSON for the validator's error list, as the vote/creation endpoints
serialize it. -/
def fieldErrorsJson (errs : List FieldError) : JsonVal :=
  .arr (errs.map (fun e =>
    .obj [("field", .str e.field), ("message", .str e.message)]))

/-- A lowercase hexadecimal digit character. -/
def hexDigitChar (n : Nat) : Char :=
  if n < 10 then Char.ofNat (48 + n) else Char.ofNat (87 + n)

/-- JSON string escaping as performed by `JSON.stringify`. -/
def jsonEscapeChar (c : Char) : String :=
  if c = '"' then "\\\""
  else if c = '\\' then "\\\\"
  else if c = '\n' then "\\n"
  else if c = '\r' then "\\r"
  else if c = '\t' then "\\t"
  else if c.toNat < 32 then
    "\\u00" ++ ⟨[hexDigitChar (c.toNat / 16), hexDigitChar (c.toNat % 16)]⟩
  else ⟨[c]⟩

/-- Escape every character of a string for JSON. -/
def jsonEscape (s : String) : String :=
  s.toList.foldl (fun acc c => acc ++ jsonEscapeChar c) ""

mutual

/-- `JSON.stringify` over the JSON model (no whitespace, insertion order). -/
def jsonStringify : JsonVal → String
  | .str s => "\"" ++ jsonEscape s ++ "\""
  | .num n => toString n
  | .bool b => if b then "true" else "false"
  | .null => "null"
  | .arr xs => "[" ++ stringifyElems xs ++ "]"
  | .obj fs => "\x7b" ++ stringifyFields fs ++ "\x7d"

/-- Comma-separated serialization of array elements. -/
def stringifyElems : List JsonVal → String
  | [] => ""
  | [x] => jsonStringify x
  | x :: rest => jsonStringify x ++ "," ++ stringifyElems rest

/-- Comma-separated serialization of object fields. -/
def stringifyFields : List (String × JsonVal) → String
  | [] => ""
  | [(k, v)] => "\"" ++ jsonEscape k ++ "\":" ++ jsonStringify v
  | (k, v) :: rest =>
    "\"" ++ jsonEscape k ++ "\":" ++ jsonStringify v ++ "," ++
      stringifyFields rest

end

/-! ## Poll creation and listing: `POST /api/polls`, `GET /api/polls` -/

/-- The parsed JSON body of a poll-creation request. -/
structure CreatePollPayload where
  title : String
  description : Option String
  options : List String
  deriving Repr, DecidableEq

/-- The JSON object the client sent (the parsed body re-serialized by the
payload-size check); an absent description key is omitted. -/
def payloadJson (p : CreatePollPayload) : JsonVal :=
  .obj ([("title", .str p.title)] ++
        (match p.description with
         | some d => [("description", .str d)]
         | none => []) ++
        [("options", .arr (p.options.map JsonVal.str))])

/-- A poll-creation request: the `content-length` header (when present and
numeric), the parsed body, and the `authorization` header. -/
structure CreateRequest where
  contentLength : Option Nat
  payload : CreatePollPayload
  authHeader : Option String
  deriving Repr, DecidableEq

/-- `ApiHelpers.validateRequestSize`: reject when a `content-length` header
is present and exceeds `REQUEST_SIZE_LIMIT`. -/
def requestTooLarge (contentLength : Option Nat) : Bool :=
  match contentLength with
  | some n => REQUEST_SIZE_LIMIT < n
  | none => false

/-- `ApiHelpers.validateJsonSize`: reject when `JSON.stringify(body)` exceeds
`REQUEST_SIZE_LIMIT` characters. -/
def jsonTooLarge (p : CreatePollPayload) : Bool :=
  REQUEST_SIZE_LIMIT < (jsonStringify (payloadJson p)).length

/-- `POST /api/polls` from `app/api/polls/route.ts`: size checks, validation,
authentication, then `createPollWithOptions`, a best-effort audit log, and
the 201 success envelope carrying the new poll. -/
def pollsPOST (s : Store) (f : CreateFaults) (getUser : String → AuthAnswer)
    (freshPollId : String) (freshOptionIds : List String) (now : Nat)
    (req : CreateRequest) : HttpResponse × Store :=
  if requestTooLarge req.contentLength then
    (errorResponse "Request too large" 413 none, s)
  else if jsonTooLarge req.payload then
    (errorResponse "Request payload too large" 413 none, s)
  else
    match validateAndSanitizePoll req.payload.title req.payload.description
        req.payload.options with
    | .error errs =>
      (errorResponse "Validation failed" 400 (some (fieldErrorsJson errs)), s)
    | .ok vd =>
      match authenticateUser req.authHeader getUser with
      | .err resp => (resp, s)
      | .ok userId _ =>
        match createPollWithOptions s f freshPollId freshOptionIds now
            ⟨vd.title, vd.description, userId⟩ vd.options with
        | (.err resp, s1) => (resp, s1)
        | (.ok poll optionsData, s1) =>
          -- the audit log is fire-and-forget and leaves no observable trace
          (successResponse "Poll created successfully!"
            (some (.obj
              [("pollId", .str poll.id),
               ("poll",
                .obj [("id", .str poll.id), ("title", .str poll.title),
                      ("description", optStrJson poll.description),
                      ("options",
                       .arr (optionsData.map (fun od =>
                         .obj [("poll_id", .str od.poll_id),
                               ("text", .str od.text),
                               ("votes", .num od.votes),
                               ("order", .num od.order)])))])]))
            201, s1)

/-- JSON for one poll in the `GET /api/polls` response: the poll row spread
with its nested options and the computed `total_votes`. -/
def pollWithVotesJson (q : PollWithVotes) : JsonVal :=
  .obj [("id", .str q.poll.id), ("title", .str q.poll.title),
        ("description", optStrJson q.poll.description),
        ("is_active", .bool q.poll.is_active),
        ("owner_id", .str q.poll.owner_id),
        ("created_at", .num q.poll.created_at),
        ("options",
         .arr (q.options.map (fun o =>
           .obj [("id", .str o.id), ("votes", .num o.votes)]))),
        ("total_votes", .num q.total_votes)]

/-- `GET /api/polls` from `app/api/polls/route.ts`: fetch the active polls
with vote totals and wrap them in the success envelope. -/
def pollsGET (s : Store) (fetchErr : Bool) : HttpResponse :=
  match fetchPollsWithVotes s fetchErr with
  | .err resp => resp
  | .ok polls =>
    successResponse "Polls fetched successfully"
      (some (.obj [("polls", .arr (polls.map pollWithVotesJson))])) 200

/-! ## Concrete fixtures used by the scenario theorems and witnesses -/

/-- The store before any poll exists. -/
def emptyStore : Store := ⟨[], [], []⟩

/-- An auth provider that resolves one known token to one user. -/
def guDemo : String → AuthAnswer := fun t =>
  if t = "valid-token-0001" then .user "user-1" (some "user1@example.com")
  else .noUser

/-- An auth provider that resolves no token. -/
def guNoUser : String → AuthAnswer := fun _ => .noUser

/-- An auth provider that resolves every token to the demo user. -/
def guAlways : String → AuthAnswer := fun _ => .user "user-1" none

/-- Store-assigned id of the "Red" option. -/
def optIdRed : String := "11111111-1111-1111-8111-111111111111"

/-- Store-assigned id of the "Blue" option. -/
def optIdBlue : String := "22222222-2222-1222-8222-222222222222"

/-- The "Color" poll-creation request of the end-to-end scenario. -/
def colorReq : CreateRequest :=
  ⟨some 80, ⟨"Color", none, ["Red", "Blue"]⟩, some "Bearer valid-token-0001"⟩

/-- The scenario after the authenticated creation of the "Color" poll. -/
def afterCreate : HttpResponse × Store :=
  pollsPOST emptyStore noCreateFaults guDemo "p-1" [optIdRed, optIdBlue] 100
    colorReq

/-- The scenario's vote request for "Red". -/
def voteRedReq : VoteRequest :=
  ⟨"p-1", optIdRed, some "Bearer valid-token-0001"⟩

/-- The scenario after user-1 votes for "Red". -/
def afterVote : VoteOutcome :=
  votePOST afterCreate.2 noVoteFaults guDemo "v-1" 200 voteRedReq

/-- The scenario after user-1 tries to vote a second time. -/
def secondVote : VoteOutcome :=
  votePOST afterVote.store noVoteFaults guDemo "v-2" 300 voteRedReq

/-- Observation: the number of options in the creation response's
`data.poll.options`. -/
def createdPollOptionCount (r : HttpResponse) : Option Nat :=
  match bodyField r "data" with
  | some d =>
    match objField d "poll" with
    | some pollJson =>
      match objField pollJson "options" with
      | some (.arr os) => some os.length
      | _ => none
    | _ => none
  | _ => none

/-- Observation: `(text, votes, percentage)` of each entry of a poll-results
response's `poll.options`. -/
def resultRows (r : HttpResponse) :
    List (Option JsonVal × Option JsonVal × Option JsonVal) :=
  match bodyField r "poll" with
  | some pollJson =>
    match objField pollJson "options" with
    | some (.arr os) =>
      os.map (fun o => (objField o "text", objField o "votes",
                        objField o "percentage"))
    | _ => []
  | _ => []

/-- The vote request of the C7 counterexample: an authorization header that
does not start with `"Bearer "`. -/
def basicAuthVoteReq : VoteRequest := ⟨"p-1", optIdRed, some "Basic abcdefghijk"⟩

/-- The vote request of the C7 counterexample with no authorization header. -/
def noHeaderVoteReq : VoteRequest := ⟨"p-1", optIdRed, none⟩

/-- A 10100-character title. -/
def bigTitle : String := String.mk (List.replicate 10100 'a')

/-- A payload with duplicate options whose JSON serialization exceeds the
10KB limit. -/
def oversizedDupPayload : CreatePollPayload := ⟨bigTitle, none, ["A", "A"]⟩

/-- The oversized duplicate-options request (its `content-length` header
carries the body's size). -/
def oversizedDupReq : CreateRequest :=
  ⟨some 10150, oversizedDupPayload, some "Bearer valid-token-0001"⟩

/-- A small duplicate-options request within the size limits. -/
def smallDupReq : CreateRequest :=
  ⟨some 60, ⟨"Test Poll", none, ["A", "A"]⟩, some "Bearer valid-token-0001"⟩

/-! # Theorems -/

/-- C3: After an authenticated user creates the poll "Color" with options
["Red","Blue"] (201, two options) and votes for "Red" (201), the vote row is
recorded, yet the poll results show Red with 0 votes and Blue with 0 votes
and percentages 0%/0% — not Red=1/100% as the specification's scenario
expects, because no code path increments `poll_options.votes` when a vote row
is inserted.  A second vote by the same user returns 409 as claimed.  This
theorem documents the divergence; the parts of the claim before and after the
results read-back hold. -/
theorem color_scenario_code_divergence :
    afterCreate.1.status = 201 ∧
    createdPollOptionCount afterCreate.1 = some 2 ∧
    afterVote.response.status = 201 ∧
    afterVote.store.votes = [⟨"v-1", "p-1", optIdRed, "user-1", 200⟩] ∧
    resultRows (voteGET afterVote.store noResultsFaults "p-1") =
      [(some (.str "Red"), some (.num 0), some (.num 0)),
       (some (.str "Blue"), some (.num 0), some (.num 0))] ∧
    secondVote.response.status = 409 ∧
    bodyField secondVote.response "message" =
      some (.str "You have already voted on this poll") :=
  ⟨rfl, rfl, rfl, rfl, rfl, rfl, rfl⟩

/-- C6 counterexample: the poll-results `GET` endpoint's success response is
a JSON object with boolean `success` but no `message` field at all, so not
every response produced by the core carries both `success` and `message`. -/
theorem voteGET_success_lacks_message :
    (voteGET afterCreate.2 noResultsFaults "p-1").status = 200 ∧
    hasBoolField (voteGET afterCreate.2 noResultsFaults "p-1") "success" = true ∧
    hasStringField (voteGET afterCreate.2 noResultsFaults "p-1") "message" = false :=
  ⟨rfl, rfl, rfl⟩

/-- C7 counterexample: on the vote endpoint, a request whose authorization
header does not start with `"Bearer "` is not rejected with 401
"Invalid authorization header format": the unmodified header value is passed
to the external auth provider, whose answer decides the outcome (401
"Invalid token" for an unresolvable token, but a successful lookup proceeds
to the poll checks), and an absent header yields "No token provided". -/
theorem vote_route_auth_header_counterexample :
    (votePOST emptyStore noVoteFaults guNoUser "v-1" 5 basicAuthVoteReq).response =
      handleAuthError "Invalid token" ∧
    ¬ bodyField (votePOST emptyStore noVoteFaults guNoUser "v-1" 5
        basicAuthVoteReq).response "message" =
        some (.str "Invalid authorization header format") ∧
    (votePOST emptyStore noVoteFaults guAlways "v-1" 5 basicAuthVoteReq).response =
      handleNotFoundError "Poll" ∧
    (votePOST emptyStore noVoteFaults guNoUser "v-1" 5 noHeaderVoteReq).response =
      handleAuthError "No token provided" := by
  refine ⟨rfl, ?_, rfl, rfl⟩
  intro h
  have h1 : (votePOST emptyStore noVoteFaults guNoUser "v-1" 5
      basicAuthVoteReq).response = handleAuthError "Invalid token" := rfl
  rw [h1] at h
  simp [handleAuthError, bodyField] at h

/-- C8: If the poll insert fails, `createPollWithOptions` returns the
"create poll" database error at once and the store is untouched (in
particular the options insert is never attempted); if the poll insert
succeeds and the options insert fails, it returns the "create poll options"
database error while the already-inserted poll row stays in the store and no
compensating delete occurs. -/
theorem createPollWithOptions_failure_modes (s : Store) (freshPollId : String)
    (freshOptionIds : List String) (now : Nat) (pd : PollInsertData)
    (options : List String) :
    (∀ fOpt : Bool,
      createPollWithOptions s ⟨true, fOpt⟩ freshPollId freshOptionIds now pd
          options =
        (.err (handleDatabaseError "create poll"), s)) ∧
    createPollWithOptions s ⟨false, true⟩ freshPollId freshOptionIds now pd
        options =
      (.err (handleDatabaseError "create poll options"),
       ⟨s.polls ++ [mkPollRow freshPollId now pd], s.poll_options, s.votes⟩) ∧
    (handleDatabaseError "create poll").status = 500 ∧
    (handleDatabaseError "create poll options").status = 500 :=
  ⟨fun _ => rfl, rfl, rfl, rfl⟩

/-- Helper: the fault-free `fetchPollsWithVotes` in closed form. -/
theorem fetchPollsWithVotes_ok (s : Store) :
    fetchPollsWithVotes s false =
      .ok ((List.insertionSort pollCreatedDesc
          (s.polls.filter (fun p => p.is_active))).map
        (fun p =>
          (⟨p, s.poll_options.filter (fun o => o.poll_id == p.id),
            ((s.poll_options.filter (fun o => o.poll_id == p.id)).map
              (fun o => o.votes)).sum⟩ : PollWithVotes))) := by
  show FetchResult.ok ((dbSelectActivePolls s).map _) = _
  rw [dbSelectActivePolls, List.map_map]
  rfl

/-- C4: With no store fault, `fetchPollsWithVotes` returns exactly the active
polls — as a permutation of the active rows, ordered by creation time
descending — and each returned poll's `total_votes` is the sum of the `votes`
fields of that poll's option rows, which are also the ones attached to it. -/
theorem fetchPollsWithVotes_active_sorted_totals (s : Store) :
    ∃ out, fetchPollsWithVotes s false = .ok out ∧
      (out.map (fun q => q.poll)).Perm (s.polls.filter (fun p => p.is_active)) ∧
      out.Pairwise (fun a b => b.poll.created_at ≤ a.poll.created_at) ∧
      ∀ q ∈ out,
        q.options = s.poll_options.filter (fun o => o.poll_id == q.poll.id) ∧
        q.total_votes =
          ((s.poll_options.filter (fun o => o.poll_id == q.poll.id)).map
            (fun o => o.votes)).sum := by
  refine ⟨_, fetchPollsWithVotes_ok s, ?_, ?_, ?_⟩
  · rw [List.map_map]
    show ((List.insertionSort pollCreatedDesc
        (s.polls.filter (fun p => p.is_active))).map (fun p => p)).Perm _
    rw [show ((List.insertionSort pollCreatedDesc
        (s.polls.filter (fun p => p.is_active))).map (fun p => p)) =
        List.insertionSort pollCreatedDesc
          (s.polls.filter (fun p => p.is_active)) from List.map_id' _]
    exact List.perm_insertionSort pollCreatedDesc _
  · have hs : (List.insertionSort pollCreatedDesc
        (s.polls.filter (fun p => p.is_active))).Pairwise pollCreatedDesc :=
      List.sorted_insertionSort pollCreatedDesc _
    exact hs.map _ (fun a b hab => hab)
  · intro q hq
    rw [List.mem_map] at hq
    obtain ⟨p, _, rfl⟩ := hq
    exact ⟨rfl, rfl⟩

/-- Helper: every error `authenticateUser` returns is a 401 in the uniform
envelope. -/
theorem authenticateUser_err_status (h? : Option String)
    (gu : String → AuthAnswer) (r : HttpResponse)
    (heq : authenticateUser h? gu = .err r) :
    r.status = 401 ∧ hasBoolField r "success" = true ∧
      hasStringField r "message" = true := by
  cases h? with
  | none => cases heq; exact ⟨rfl, rfl, rfl⟩
  | some h =>
    unfold authenticateUser at heq
    by_cases hb : strStartsWith h "Bearer " = true
    · simp only [hb, if_true] at heq
      by_cases hlen : (jsTrim (jsRemoveFirst "Bearer " h) = "" ∨
          (jsTrim (jsRemoveFirst "Bearer " h)).length < MIN_TOKEN_LENGTH)
      · rw [if_pos hlen] at heq
        cases heq; exact ⟨rfl, rfl, rfl⟩
      · rw [if_neg hlen] at heq
        cases hgu : gu (jsTrim (jsRemoveFirst "Bearer " h)) with
        | user uid em => rw [hgu] at heq; cases heq
        | noUser => rw [hgu] at heq; cases heq; exact ⟨rfl, rfl, rfl⟩
        | thrown => rw [hgu] at heq; cases heq; exact ⟨rfl, rfl, rfl⟩
    · rw [Bool.not_eq_true] at hb
      simp only [hb, Bool.false_eq_true, if_false] at heq
      cases heq; exact ⟨rfl, rfl, rfl⟩

/-- Helper: every row of the `optionsData` array carries zero votes and the
new poll's id. -/
theorem mkOptionsData_votes (fid : String) (opts : List String) :
    ∀ od ∈ mkOptionsData fid opts, od.votes = 0 ∧ od.poll_id = fid := by
  intro od hod
  unfold mkOptionsData at hod
  rw [List.mem_map] at hod
  obtain ⟨p, _, rfl⟩ := hod
  exact ⟨rfl, rfl⟩

/-- C5: after a poll-creation request that succeeded (status 201), the
fault-free poll listing includes the newly created poll with `total_votes`
equal to 0 and every one of its attached options carrying 0 votes.  The
freshness hypothesis says the store-assigned poll id is new: no pre-existing
option row references it. -/
theorem polls_roundtrip_new_poll_zero_votes (s : Store)
    (gu : String → AuthAnswer) (freshPollId : String)
    (freshOptionIds : List String) (now : Nat) (req : CreateRequest)
    (resp : HttpResponse) (s1 : Store)
    (heq : pollsPOST s noCreateFaults gu freshPollId freshOptionIds now req =
      (resp, s1))
    (h201 : resp.status = 201)
    (hfresh : ∀ o ∈ s.poll_options, o.poll_id ≠ freshPollId) :
    ∃ out, fetchPollsWithVotes s1 false = .ok out ∧
      ∃ q ∈ out, q.poll.id = freshPollId ∧ q.total_votes = 0 ∧
        ∀ o ∈ q.options, o.votes = 0 := by
  unfold pollsPOST at heq
  by_cases h1 : requestTooLarge req.contentLength = true
  · simp only [h1, if_true] at heq
    injection heq with e1 _
    rw [← e1] at h201
    simp [errorResponse] at h201
  rw [Bool.not_eq_true] at h1
  simp only [h1, Bool.false_eq_true, if_false] at heq
  by_cases h2 : jsonTooLarge req.payload = true
  · simp only [h2, if_true] at heq
    injection heq with e1 _
    rw [← e1] at h201
    simp [errorResponse] at h201
  rw [Bool.not_eq_true] at h2
  simp only [h2, Bool.false_eq_true, if_false] at heq
  cases hval : validateAndSanitizePoll req.payload.title req.payload.description
      req.payload.options with
  | error errs =>
    simp only [hval] at heq
    injection heq with e1 _
    rw [← e1] at h201
    simp [errorResponse] at h201
  | ok vd =>
    simp only [hval] at heq
    cases hauth : authenticateUser req.authHeader gu with
    | err r =>
      simp only [hauth] at heq
      injection heq with e1 _
      rw [← e1] at h201
      have := (authenticateUser_err_status _ _ _ hauth).1
      omega
    | ok userId em =>
      simp only [hauth] at heq
      have hcreate : createPollWithOptions s noCreateFaults freshPollId
          freshOptionIds now ⟨vd.title, vd.description, userId⟩ vd.options =
          (.ok (mkPollRow freshPollId now ⟨vd.title, vd.description, userId⟩)
            (mkOptionsData freshPollId vd.options),
           ⟨s.polls ++ [mkPollRow freshPollId now
              ⟨vd.title, vd.description, userId⟩],
            s.poll_options ++
              (freshOptionIds.zip (mkOptionsData freshPollId vd.options)).map
                (fun p => ⟨p.1, p.2.poll_id, p.2.text, p.2.votes, p.2.order⟩),
            s.votes⟩) := rfl
      simp only [hcreate] at heq
      injection heq with _ e2
      subst e2
      refine ⟨_, fetchPollsWithVotes_ok _, ?_⟩
      set newPoll : Poll :=
        mkPollRow freshPollId now ⟨vd.title, vd.description, userId⟩ with hnp
      set newStore : Store :=
        ⟨s.polls ++ [newPoll],
         s.poll_options ++
           (freshOptionIds.zip (mkOptionsData freshPollId vd.options)).map
             (fun p => ⟨p.1, p.2.poll_id, p.2.text, p.2.votes, p.2.order⟩),
         s.votes⟩ with hns
      have hvotes0 : ∀ o ∈ newStore.poll_options.filter
          (fun o => o.poll_id == newPoll.id), o.votes = 0 := by
        intro o ho
        rw [List.mem_filter] at ho
        rcases List.mem_append.1 ho.1 with hold | hnew
        · exact absurd (beq_iff_eq.mp ho.2) (hfresh o hold)
        · rw [List.mem_map] at hnew
          obtain ⟨p, hp, rfl⟩ := hnew
          exact (mkOptionsData_votes freshPollId vd.options p.2
            (List.of_mem_zip hp).2).1
      refine ⟨⟨newPoll,
        newStore.poll_options.filter (fun o => o.poll_id == newPoll.id),
        ((newStore.poll_options.filter
          (fun o => o.poll_id == newPoll.id)).map (fun o => o.votes)).sum⟩,
        ?_, rfl, ?_, hvotes0⟩
      · exact List.mem_map_of_mem _
          ((List.mem_insertionSort pollCreatedDesc).2
            (List.mem_filter.2
              ⟨List.mem_append.2 (Or.inr (List.mem_singleton_self _)), rfl⟩))
      · refine List.sum_eq_zero ?_
        intro x hx
        rw [List.mem_map] at hx
        obtain ⟨o, ho, rfl⟩ := hx
        exact hvotes0 o ho

/-- C2: on a vote request with a valid body that authenticates, the Vote
Recorder's checks run in order before any insert: an absent poll yields the
NotFound response, an inactive poll yields 400 "Poll is no longer active",
a missing (or foreign) option yields 400 "Invalid option for this poll" — in
each case the store is untouched and the insert is never attempted — and
only when all three checks pass does control reach the votes-table insert. -/
theorem vote_checks_in_order (s : Store) (f : VoteFaults)
    (gu : String → AuthAnswer) (fid : String) (now : Nat) (req : VoteRequest)
    (h : String) (uid : String) (em : Option String) (poll : Poll)
    (huuid : isUuid req.option_id = true)
    (hh : req.authHeader = some h)
    (htok : ¬ jsRemoveFirst "Bearer " h = "")
    (hu : gu (jsRemoveFirst "Bearer " h) = .user uid em) :
    (lookupPoll s req.pollId = none →
      votePOST s f gu fid now req = ⟨handleNotFoundError "Poll", s, false⟩) ∧
    (f.pollLookupErr = false → lookupPoll s req.pollId = some poll →
      poll.is_active = false →
      votePOST s f gu fid now req =
        ⟨⟨400, [("success", .bool false),
                ("message", .str "Poll is no longer active")]⟩, s, false⟩) ∧
    (f.pollLookupErr = false → lookupPoll s req.pollId = some poll →
      poll.is_active = true → f.optionLookupErr = false →
      lookupOption s req.option_id req.pollId = none →
      votePOST s f gu fid now req =
        ⟨⟨400, [("success", .bool false),
                ("message", .str "Invalid option for this poll")]⟩, s, false⟩) ∧
    (f.pollLookupErr = false → lookupPoll s req.pollId = some poll →
      poll.is_active = true → f.optionLookupErr = false →
      ∀ opt, lookupOption s req.option_id req.pollId = some opt →
        (votePOST s f gu fid now req).insertAttempted = true) := by
  refine ⟨?_, ?_, ?_, ?_⟩
  · intro hp
    by_cases hpl : f.pollLookupErr = true
    · simp [votePOST, huuid, hh, htok, hu, hpl]
    · rw [Bool.not_eq_true] at hpl
      simp [votePOST, huuid, hh, htok, hu, hpl, hp]
  · intro hpl hp hact
    simp [votePOST, huuid, hh, htok, hu, hpl, hp, hact]
  · intro hpl hp hact holf ho
    simp [votePOST, huuid, hh, htok, hu, hpl, hp, hact, holf, ho]
  · intro hpl hp hact holf opt ho
    cases hins : voteInsertStep s f.insertErr fid now req.pollId req.option_id
        uid with
    | error code =>
      by_cases hc : code = "23505" <;>
        simp [votePOST, huuid, hh, htok, hu, hpl, hp, hact, holf, ho, hins, hc]
    | ok pr =>
      simp [votePOST, huuid, hh, htok, hu, hpl, hp, hact, holf, ho, hins]

/-- C1: when the votes-table insert fails with the store's
uniqueness-violation code 23505, the vote endpoint responds 409 with
"You have already voted on this poll" (not a 500), and the rejected attempt
leaves the vote rows and the option vote counts unchanged. -/
theorem vote_uniqueViolation_conflict (s : Store) (f : VoteFaults)
    (gu : String → AuthAnswer) (fid : String) (now : Nat) (req : VoteRequest)
    (h : String) (uid : String) (em : Option String) (poll : Poll)
    (opt : PollOption)
    (huuid : isUuid req.option_id = true)
    (hh : req.authHeader = some h)
    (htok : ¬ jsRemoveFirst "Bearer " h = "")
    (hu : gu (jsRemoveFirst "Bearer " h) = .user uid em)
    (hpl : f.pollLookupErr = false)
    (hp : lookupPoll s req.pollId = some poll)
    (hact : poll.is_active = true)
    (holf : f.optionLookupErr = false)
    (ho : lookupOption s req.option_id req.pollId = some opt)
    (hins : voteInsertStep s f.insertErr fid now req.pollId req.option_id uid =
      .error "23505") :
    (votePOST s f gu fid now req).response =
      ⟨409, [("success", .bool false),
             ("message", .str "You have already voted on this poll")]⟩ ∧
    (votePOST s f gu fid now req).store.votes = s.votes ∧
    (votePOST s f gu fid now req).store.poll_options = s.poll_options := by
  simp [votePOST, huuid, hh, htok, hu, hpl, hp, hact, holf, ho, hins]

/-- C10: on the vote endpoint, a store-level error during the poll lookup
produces exactly the same NotFound response (status 404) as an absent poll,
and a store-level error during the option lookup produces exactly the same
400 "Invalid option for this poll" response as a nonexistent option; neither
failure surfaces as a 500. -/
theorem vote_lookup_faults_mapped (s : Store) (f : VoteFaults)
    (gu : String → AuthAnswer) (fid : String) (now : Nat) (req : VoteRequest)
    (h : String) (uid : String) (em : Option String) (poll : Poll)
    (huuid : isUuid req.option_id = true)
    (hh : req.authHeader = some h)
    (htok : ¬ jsRemoveFirst "Bearer " h = "")
    (hu : gu (jsRemoveFirst "Bearer " h) = .user uid em) :
    (f.pollLookupErr = true →
      votePOST s f gu fid now req = ⟨handleNotFoundError "Poll", s, false⟩) ∧
    (handleNotFoundError "Poll").status = 404 ∧
    (f.pollLookupErr = false → lookupPoll s req.pollId = some poll →
      poll.is_active = true → f.optionLookupErr = true →
      votePOST s f gu fid now req =
        ⟨⟨400, [("success", .bool false),
                ("message", .str "Invalid option for this poll")]⟩,
         s, false⟩) := by
  refine ⟨?_, rfl, ?_⟩
  · intro hpl
    simp [votePOST, huuid, hh, htok, hu, hpl]
  · intro hpl hp hact holf
    simp [votePOST, huuid, hh, htok, hu, hpl, hp, hact, holf]

/-- Helper: the length of a `String.mk`. -/
theorem strLength_mk (l : List Char) : (String.mk l).length = l.length := rfl

/-- Helper: every escaped character serializes to at least one character. -/
theorem jsonEscapeChar_length_pos (c : Char) :
    1 ≤ (jsonEscapeChar c).length := by
  unfold jsonEscapeChar
  split_ifs <;>
    first
    | decide
    | (rw [String.length_append, strLength_mk]; norm_num)
    | (rw [strLength_mk]; simp)

/-- Helper: JSON escaping never shortens a string. -/
theorem jsonEscape_length (s : String) : s.length ≤ (jsonEscape s).length := by
  have gen : ∀ (l : List Char) (acc : String),
      acc.length + l.length ≤
        (l.foldl (fun a c => a ++ jsonEscapeChar c) acc).length := by
    intro l
    induction l with
    | nil => intro acc; simp
    | cons c rest ih =>
      intro acc
      have h1 := jsonEscapeChar_length_pos c
      have h2 := ih (acc ++ jsonEscapeChar c)
      rw [String.length_append] at h2
      simp only [List.foldl_cons, List.length_cons]
      omega
  have h3 := gen s.toList ""
  have h4 : s.toList.length = s.length := rfl
  unfold jsonEscape
  omega

/-- Helper: the oversized duplicate-options payload really exceeds the JSON
size limit. -/
theorem oversizedDupPayload_jsonTooLarge :
    jsonTooLarge oversizedDupPayload = true := by
  simp only [jsonTooLarge, decide_eq_true_eq]
  have heq : jsonStringify (payloadJson oversizedDupPayload) =
      "\x7b" ++ ("\"" ++ jsonEscape "title" ++ "\":" ++
        ("\"" ++ jsonEscape bigTitle ++ "\"") ++ "," ++
        ("\"" ++ jsonEscape "options" ++ "\":" ++
          jsonStringify (.arr [.str "A", .str "A"]))) ++ "\x7d" := rfl
  rw [heq]
  have h1 := jsonEscape_length bigTitle
  have hbt : bigTitle.length = 10100 := by
    rw [show bigTitle = String.mk (List.replicate 10100 'a') from rfl,
      strLength_mk, List.length_replicate]
  have hRL : REQUEST_SIZE_LIMIT = 10000 := rfl
  simp only [String.length_append]
  omega

/-- C9 counterexample: a poll-creation payload with two equal options whose
serialized body exceeds the 10KB limit is answered 413 (the size check runs
before validation), not 400 with an `options` field error. -/
theorem dup_options_oversize_not_400 :
    ¬ (oversizedDupPayload.options.map (fun o => jsTrim o)).Nodup ∧
    jsonTooLarge oversizedDupPayload = true ∧
    (pollsPOST emptyStore noCreateFaults guDemo "p-9" [] 0
      oversizedDupReq).1.status = 413 :=
  ⟨by decide, oversizedDupPayload_jsonTooLarge, rfl⟩

/-- Helper: with duplicate post-trim options, the validator reports the
`options` field with the "must be unique" message. -/
theorem validateAndSanitizePoll_dup (title : String) (desc : Option String)
    (options : List String)
    (hdup : ¬ (options.map (fun o => jsTrim o)).Nodup) :
    ∃ errs, validateAndSanitizePoll title desc options = .error errs ∧
      (⟨"options", "Options must be unique"⟩ : FieldError) ∈ errs := by
  have hmem : (⟨"options", "Options must be unique"⟩ : FieldError) ∈
      pollValidationErrors title desc options := by
    unfold pollValidationErrors
    rw [if_neg hdup]
    simp
  refine ⟨pollValidationErrors title desc options, ?_, hmem⟩
  unfold validateAndSanitizePoll
  rw [if_neg (fun hE => List.ne_nil_of_mem hmem
    (List.isEmpty_iff.mp hE))]

/-- C9 amended: for every poll-creation request within both 10KB size limits
whose payload has two options equal after trimming, the response is 400
"Validation failed" with a field-level error for `options` whose message
contains "must be unique".  (The unamended claim fails only for oversized
payloads, which the size checks answer 413 before validation.) -/
theorem dup_options_within_limits_400 (s : Store) (f : CreateFaults)
    (gu : String → AuthAnswer) (fp : String) (fo : List String) (now : Nat)
    (req : CreateRequest)
    (hsz1 : requestTooLarge req.contentLength = false)
    (hsz2 : jsonTooLarge req.payload = false)
    (hdup : ¬ (req.payload.options.map (fun o => jsTrim o)).Nodup) :
    ∃ errs,
      validateAndSanitizePoll req.payload.title req.payload.description
        req.payload.options = .error errs ∧
      (pollsPOST s f gu fp fo now req).1 =
        errorResponse "Validation failed" 400 (some (fieldErrorsJson errs)) ∧
      (pollsPOST s f gu fp fo now req).1.status = 400 ∧
      ∃ e ∈ errs, e.field = "options" ∧
        strContains e.message "must be unique" = true := by
  obtain ⟨errs, hv, hm⟩ := validateAndSanitizePoll_dup req.payload.title
    req.payload.description req.payload.options hdup
  have hpost : (pollsPOST s f gu fp fo now req).1 =
      errorResponse "Validation failed" 400 (some (fieldErrorsJson errs)) := by
    unfold pollsPOST
    simp only [hsz1, hsz2, Bool.false_eq_true, if_false, hv]
  refine ⟨errs, hv, hpost, by rw [hpost]; rfl,
    ⟨"options", "Options must be unique"⟩, hm, rfl, by decide⟩

/-- Helper: any error returned by `createPollWithOptions` is in the uniform
envelope. -/
theorem createPollWithOptions_err_envelope (s : Store) (f : CreateFaults)
    (fp : String) (fo : List String) (now : Nat) (pd : PollInsertData)
    (options : List String) (r : HttpResponse) (s1 : Store)
    (heq : createPollWithOptions s f fp fo now pd options = (.err r, s1)) :
    hasBoolField r "success" = true ∧ hasStringField r "message" = true := by
  unfold createPollWithOptions at heq
  split at heq
  · injection heq with e1 _
    injection e1 with e3
    rw [← e3]
    exact ⟨rfl, rfl⟩
  · split at heq
    · injection heq with e1 _
      injection e1 with e3
      rw [← e3]
      exact ⟨rfl, rfl⟩
    · injection heq with e1 _
      cases e1

/-- Helper: any error returned by `fetchPollsWithVotes` is in the uniform
envelope. -/
theorem fetchPollsWithVotes_err_envelope (s : Store) (e : Bool)
    (r : HttpResponse) (heq : fetchPollsWithVotes s e = .err r) :
    hasBoolField r "success" = true ∧ hasStringField r "message" = true := by
  unfold fetchPollsWithVotes at heq
  split at heq
  · injection heq with e1
    rw [← e1]
    exact ⟨rfl, rfl⟩
  · cases heq

/-- C6 amended: every response of the vote endpoint, the poll-creation
endpoint and the poll-listing endpoint is a JSON object carrying a boolean
`success` and a string `message`; the poll-results GET endpoint's responses
carry boolean `success`, and all of them except its 200 success response
(which has no `message` field) also carry a string `message`. -/
theorem responses_envelope_amended :
    (∀ s f gu fid now req,
      hasBoolField (votePOST s f gu fid now req).response "success" = true ∧
      hasStringField (votePOST s f gu fid now req).response "message" = true) ∧
    (∀ s f gu fp fo now req,
      hasBoolField (pollsPOST s f gu fp fo now req).1 "success" = true ∧
      hasStringField (pollsPOST s f gu fp fo now req).1 "message" = true) ∧
    (∀ s e, hasBoolField (pollsGET s e) "success" = true ∧
      hasStringField (pollsGET s e) "message" = true) ∧
    (∀ s f pid, hasBoolField (voteGET s f pid) "success" = true ∧
      ((voteGET s f pid).status = 200 ∨
        hasStringField (voteGET s f pid) "message" = true)) := by
  refine ⟨?_, ?_, ?_, ?_⟩
  · intro s f gu fid now req
    unfold votePOST
    repeat' split
    all_goals exact ⟨rfl, rfl⟩
  · intro s f gu fp fo now req
    unfold pollsPOST
    repeat' split
    all_goals
      first
      | exact ⟨rfl, rfl⟩
      | (rename_i heqa
         exact ⟨(authenticateUser_err_status _ _ _ heqa).2.1,
                (authenticateUser_err_status _ _ _ heqa).2.2⟩)
      | (rename_i heqc
         exact createPollWithOptions_err_envelope _ _ _ _ _ _ _ _ _ heqc)
  · intro s e
    unfold pollsGET
    split
    · rename_i r heqf
      exact fetchPollsWithVotes_err_envelope _ _ _ heqf
    · exact ⟨rfl, rfl⟩
  · intro s f pid
    unfold voteGET
    repeat' split
    all_goals first
    | exact ⟨rfl, Or.inr rfl⟩
    | exact ⟨rfl, Or.inl rfl⟩

/-- C7 amended: for requests authenticated through
`ApiHelpers.authenticateUser` (the poll-creation endpoint), an absent
authorization header or one without the `"Bearer "` start is answered with
the 401 "Invalid authorization header format" response, and a token shorter
than `MIN_TOKEN_LENGTH` after prefix removal and trimming is answered with
the 401 "Invalid token format" response; both failures are decided without
consulting the auth provider (the result is the same for every provider).
The vote endpoint's inline authentication instead answers "No token
provided"/"Invalid token" and passes a non-Bearer header to the provider. -/
theorem authenticateUser_early_failures (h : String)
    (gu gu' : String → AuthAnswer) :
    (authenticateUser none gu =
      .err (errorResponse "Invalid authorization header format" 401 none)) ∧
    (strStartsWith h "Bearer " = false →
      authenticateUser (some h) gu =
        .err (errorResponse "Invalid authorization header format" 401 none)) ∧
    (strStartsWith h "Bearer " = false →
      authenticateUser (some h) gu = authenticateUser (some h) gu') ∧
    (strStartsWith h "Bearer " = true →
      (jsTrim (jsRemoveFirst "Bearer " h)).length < MIN_TOKEN_LENGTH →
      authenticateUser (some h) gu =
        .err (errorResponse "Invalid token format" 401 none)) ∧
    (strStartsWith h "Bearer " = true →
      (jsTrim (jsRemoveFirst "Bearer " h)).length < MIN_TOKEN_LENGTH →
      authenticateUser (some h) gu = authenticateUser (some h) gu') := by
  refine ⟨rfl, ?_, ?_, ?_, ?_⟩
  · intro hb
    simp [authenticateUser, hb]
  · intro hb
    simp [authenticateUser, hb]
  · intro hb hlen
    simp [authenticateUser, hb, hlen]
  · intro hb hlen
    simp [authenticateUser, hb, hlen]

/-- Witness for the amended C7 theorem at concrete inputs. -/
theorem authenticateUser_early_failures_witness :
    (strStartsWith "Basic abcdefghijk" "Bearer " = false ∧
      authenticateUser (some "Basic abcdefghijk") guNoUser =
        .err (errorResponse "Invalid authorization header format" 401 none) ∧
      authenticateUser (some "Basic abcdefghijk") guNoUser =
        authenticateUser (some "Basic abcdefghijk") guAlways) ∧
    (strStartsWith "Bearer short" "Bearer " = true ∧
      (jsTrim (jsRemoveFirst "Bearer " "Bearer short")).length <
        MIN_TOKEN_LENGTH ∧
      authenticateUser (some "Bearer short") guNoUser =
        .err (errorResponse "Invalid token format" 401 none)) :=
  ⟨⟨by decide,
    (authenticateUser_early_failures "Basic abcdefghijk" guNoUser
      guAlways).2.1 (by decide),
    (authenticateUser_early_failures "Basic abcdefghijk" guNoUser
      guAlways).2.2.1 (by decide)⟩,
   ⟨by decide, by decide,
    (authenticateUser_early_failures "Bearer short" guNoUser
      guAlways).2.2.2.1 (by decide) (by decide)⟩⟩

/-- Witness for the C1 theorem: the second vote of the scenario hits the
uniqueness constraint and is answered 409 with the store unchanged. -/
theorem vote_uniqueViolation_conflict_witness :
    (votePOST afterVote.store noVoteFaults guDemo "v-2" 300
      voteRedReq).response =
      ⟨409, [("success", .bool false),
             ("message", .str "You have already voted on this poll")]⟩ ∧
    (votePOST afterVote.store noVoteFaults guDemo "v-2" 300
      voteRedReq).store.votes = afterVote.store.votes ∧
    (votePOST afterVote.store noVoteFaults guDemo "v-2" 300
      voteRedReq).store.poll_options = afterVote.store.poll_options :=
  vote_uniqueViolation_conflict afterVote.store noVoteFaults guDemo "v-2" 300
    voteRedReq "Bearer valid-token-0001" "user-1" (some "user1@example.com")
    ⟨"p-1", "Color", none, true, "user-1", 100⟩
    ⟨optIdRed, "p-1", "Red", 0, 0⟩
    (by decide) rfl (by decide) rfl rfl rfl rfl rfl rfl rfl

/-- Witness for the C2 theorem: on the scenario store all three checks pass
and the insert is attempted. -/
theorem vote_checks_in_order_witness :
    (votePOST afterCreate.2 noVoteFaults guDemo "v-9" 500
      voteRedReq).insertAttempted = true :=
  (vote_checks_in_order afterCreate.2 noVoteFaults guDemo "v-9" 500 voteRedReq
    "Bearer valid-token-0001" "user-1" (some "user1@example.com")
    ⟨"p-1", "Color", none, true, "user-1", 100⟩
    (by decide) rfl (by decide) rfl).2.2.2 rfl rfl rfl rfl
    ⟨optIdRed, "p-1", "Red", 0, 0⟩ rfl

/-- Witness for the C10 theorem: an injected poll-lookup failure is answered
with the NotFound response even though the poll exists. -/
theorem vote_lookup_faults_mapped_witness :
    votePOST afterCreate.2 ⟨true, false, none, false, false⟩ guDemo "v-9" 500
      voteRedReq =
      ⟨handleNotFoundError "Poll", afterCreate.2, false⟩ :=
  (vote_lookup_faults_mapped afterCreate.2 ⟨true, false, none, false, false⟩
    guDemo "v-9" 500 voteRedReq "Bearer valid-token-0001" "user-1"
    (some "user1@example.com") ⟨"p-1", "Color", none, true, "user-1", 100⟩
    (by decide) rfl (by decide) rfl).1 rfl

/-- Witness for the C4 theorem at the scenario store. -/
theorem fetchPollsWithVotes_active_sorted_totals_witness :
    ∃ out, fetchPollsWithVotes afterVote.store false = .ok out ∧
      (out.map (fun q => q.poll)).Perm
        (afterVote.store.polls.filter (fun p => p.is_active)) ∧
      out.Pairwise (fun a b => b.poll.created_at ≤ a.poll.created_at) ∧
      ∀ q ∈ out,
        q.options = afterVote.store.poll_options.filter
          (fun o => o.poll_id == q.poll.id) ∧
        q.total_votes =
          ((afterVote.store.poll_options.filter
            (fun o => o.poll_id == q.poll.id)).map (fun o => o.votes)).sum :=
  fetchPollsWithVotes_active_sorted_totals afterVote.store

/-- Witness for the C5 theorem: after the scenario's creation request, the
listing contains the new poll with zero total votes. -/
theorem polls_roundtrip_new_poll_zero_votes_witness :
    ∃ out, fetchPollsWithVotes afterCreate.2 false = .ok out ∧
      ∃ q ∈ out, q.poll.id = "p-1" ∧ q.total_votes = 0 ∧
        ∀ o ∈ q.options, o.votes = 0 :=
  polls_roundtrip_new_poll_zero_votes emptyStore guDemo "p-1"
    [optIdRed, optIdBlue] 100 colorReq afterCreate.1 afterCreate.2 rfl rfl
    (by intro o ho; cases ho)

/-- Witness for the amended C9 theorem at a small duplicate-options request. -/
theorem dup_options_within_limits_400_witness :
    ∃ errs,
      validateAndSanitizePoll smallDupReq.payload.title
        smallDupReq.payload.description smallDupReq.payload.options =
        .error errs ∧
      (pollsPOST emptyStore noCreateFaults guDemo "p-9" [] 0 smallDupReq).1 =
        errorResponse "Validation failed" 400 (some (fieldErrorsJson errs)) ∧
      (pollsPOST emptyStore noCreateFaults guDemo "p-9" [] 0
        smallDupReq).1.status = 400 ∧
      ∃ e ∈ errs, e.field = "options" ∧
        strContains e.message "must be unique" = true :=
  dup_options_within_limits_400 emptyStore noCreateFaults guDemo "p-9" [] 0
    smallDupReq rfl (by decide) (by decide)

end Polling
